import Mathlib

/-!
# AVwxHUD — verification of the rendering & display-state engine

Shallow embedding of the AVwxHUD aviation-weather display (Python) in Lean 4.

Embedded modules:
* `src/weather/weather_fetcher.py` — `get_weather_icon`, the flight-category
  color table, and the shape of the parsed METAR/TAF dictionaries.
* `src/graphics/renderer.py` — `DisplayRenderer`: the METAR / TAF / startup
  layout compositors, the pixel-level drawing primitives (`_draw_icon`,
  `_draw_text`, the wind-arrow plotting loops of `_draw_wind` and
  `_draw_wind_large`), `_convert_to_cst_24hr` and `_get_flight_rules_color`.
* `src/display/controller.py` — `DisplayController`: the dual-timer state
  machine (`update`, `render`, `set_airport`, `__init__`).

Modelling conventions:
* Python ints are `Int` (or `Nat` where the value is a count); Python float
  wall-clock timestamps are abstracted to `Int` time units (only their ordered
  additive structure is used by the code under verification); the single
  `float` weather field (`visibility`) is modelled as `ℚ`, with CPython's
  binary-float `.1f` formatting abstracted to exact rational
  round-half-to-even (no claim depends on that digit).
* A layout function is embedded as the sequence of drawing calls it makes
  (`DrawOp` list, one element per Python draw call, in call order); a
  separate interpreter maps each `DrawOp` to the list of in-bounds pixel
  writes it performs, mirroring the per-pixel bounds checks of
  `_draw_text`/`_draw_icon` and the silent clipping of PIL's
  `ImageDraw.rectangle`.
* Network fetches (`WeatherFetcher.get_metar` / `get_taf`) are external
  collaborators: the controller transition `update` takes their results as
  parameters.  Console printing is side-effect-free and dropped.
* The `icons.py` module (glyph/icon bitmaps, wind-arrow geometry) is imported
  by the renderer but absent from the repository snapshot; its bitmaps are
  modelled from the spec where they are needed (see `fontGetChar`,
  `airplaneIcon`), and the wind-arrow generator is abstracted to its result
  (a list of pixel offsets), which is all the renderer consumes.
-/

namespace AVwxHUD

/-- RGB triple, each channel 0–255 in the program (the embedding does not
depend on the channel bound). -/
abbrev Color := Nat × Nat × Nat

/-- A single pixel write: x-coordinate, y-coordinate, color. -/
abbrev Write := Int × Int × Color

/-! ## Python numeric string formatting

The renderer builds its text with f-strings (`{n:3d}`, `{n:03d}`, `{n:02d}`,
`{v:.1f}`, plain `{n}`).  These helpers reproduce CPython's `int` formatting
exactly and `.1f` up to the rational abstraction described above. -/

/-- Decimal digit characters of a natural number, most significant first,
with explicit fuel so that the definition is structurally recursive (and so
evaluates inside the kernel); `fuel = n + 1` always suffices since `n / 10`
shrinks. -/
def natCharsAux : Nat → Nat → List Char
  | 0, _ => []
  | fuel + 1, n =>
    if n < 10 then [Nat.digitChar n]
    else natCharsAux fuel (n / 10) ++ [Nat.digitChar (n % 10)]

/-- Decimal digit characters of a natural number, most significant first
(`"0"` for zero). -/
def natChars (n : Nat) : List Char :=
  natCharsAux (n + 1) n

/-- Python `str(n)` / f-string `{n}` for an int. -/
def pyIntRepr (n : Int) : String :=
  if n < 0 then "-" ++ ⟨natChars (-n).toNat⟩ else ⟨natChars n.toNat⟩

/-- Left-pad a character list to width `w` with `c`. -/
def padLeft (c : Char) (w : Nat) (l : List Char) : List Char :=
  List.replicate (w - l.length) c ++ l

/-- Python `f"{n:0wd}"`: zero padding to total width `w`, sign before the
zeros, no truncation of wider numbers. -/
def fmtZero (w : Nat) (n : Int) : String :=
  if n < 0 then ⟨'-' :: padLeft '0' (w - 1) (natChars (-n).toNat)⟩
  else ⟨padLeft '0' w (natChars n.toNat)⟩

/-- Python `f"{n:wd}"`: space padding (right alignment) to width `w`. -/
def fmtSpace (w : Nat) (n : Int) : String :=
  ⟨padLeft ' ' w (pyIntRepr n).toList⟩

/-- Round a rational to the nearest integer, ties to even (CPython's rounding
of a float formatted with `.1f`, up to binary representation of the float). -/
def roundHalfEven (q : ℚ) : ℤ :=
  let f := ⌊q⌋
  if q - f < 1/2 then f
  else if (1:ℚ)/2 < q - f then f + 1
  else if f % 2 = 0 then f else f + 1

/-- Python `f"{v:.1f}"` on the rational model of the float `v`. -/
def fmt1f (q : ℚ) : String :=
  let n := roundHalfEven (q * 10)
  if n < 0 then
    "-" ++ ⟨natChars ((-n).toNat / 10)⟩ ++ "." ++ ⟨[Nat.digitChar ((-n).toNat % 10)]⟩
  else
    ⟨natChars (n.toNat / 10)⟩ ++ "." ++ ⟨[Nat.digitChar (n.toNat % 10)]⟩

/-- Python `s.upper()` (ASCII range, which is all the program feeds it). -/
def pyUpper (s : String) : String := ⟨s.toList.map Char.toUpper⟩

/-! ## `weather_fetcher.get_weather_icon` -/

/-- `startsWithChars pat l`: `pat` is a prefix of `l` (helper for the Python
substring test). -/
def startsWithChars : List Char → List Char → Bool
  | [], _ => true
  | _ :: _, [] => false
  | a :: ps, b :: bs => a = b && startsWithChars ps bs

/-- `subChars pat l`: `pat` occurs as a contiguous run inside `l`. -/
def subChars (pat : List Char) : List Char → Bool
  | [] => decide (pat = [])
  | b :: bs => startsWithChars pat (b :: bs) || subChars pat bs

/-- Python `pat in cond` substring test on strings. -/
def hasCode (pat cond : String) : Bool := subChars pat.toList cond.toList

/-- The body of the `for cond in conditions` loop of `get_weather_icon`: the
icon the loop would return for this single condition code, or `none` if the
loop falls through to the next code. -/
def condIcon (cond : String) : Option String :=
  if hasCode "TS" cond then some "thunderstorm"
  else if hasCode "SN" cond || hasCode "SG" cond then some "snow"
  else if hasCode "RA" cond || hasCode "DZ" cond then some "rain"
  else if hasCode "FG" cond || hasCode "BR" cond then some "fog"
  else none

/-- The whole `for` loop of `get_weather_icon`: first condition code that
matches any pattern decides the icon. -/
def loopIcons : List String → Option String
  | [] => none
  | c :: rest =>
    match condIcon c with
    | some i => some i
    | none => loopIcons rest

/-- `weather_fetcher.get_weather_icon(conditions, flight_rules)`. -/
def get_weather_icon (conditions : List String) (flight_rules : String) : String :=
  if conditions = [] then
    if flight_rules = "VFR" then "clear" else "cloudy"
  else
    match loopIcons conditions with
    | some i => i
    | none =>
      if flight_rules = "VFR" then "clear"
      else if flight_rules ∈ (["MVFR", "IFR", "LIFR"] : List String) then "cloudy"
      else "unknown"

/-! ## `renderer._get_flight_rules_color` -/

/-- `DisplayRenderer._get_flight_rules_color`: dict lookup on
`flight_rules.upper()` with gray default. -/
def get_flight_rules_color (flight_rules : String) : Color :=
  let u := pyUpper flight_rules
  if u = "VFR" then (0, 255, 0)
  else if u = "MVFR" then (0, 0, 255)
  else if u = "IFR" then (255, 0, 0)
  else if u = "LIFR" then (255, 0, 255)
  else (128, 128, 128)

/-! ## `renderer._convert_to_cst_24hr` -/

/-- Characters CPython's `int()` strips as whitespace (ASCII range). -/
def isPySpace (c : Char) : Bool :=
  c = ' ' || c = '\t' || c = '\n' || c = '\r' || c = '\x0b' || c = '\x0c'

/-- Numeric value of a digit character as used by `int()`. -/
def charVal (c : Char) : Int := (c.toNat : Int) - 48

/-- CPython `int(s)` restricted to the exactly-two-character slices the
renderer feeds it: optional surrounding whitespace, optional sign, then
digits (an underscore cannot legally appear in a two-character literal);
`none` models the `ValueError` caught by the renderer. -/
def pyInt2 : List Char → Option Int
  | [a, b] =>
    if a.isDigit && b.isDigit then some (10 * charVal a + charVal b)
    else if isPySpace a && b.isDigit then some (charVal b)
    else if a.isDigit && isPySpace b then some (charVal a)
    else if a = '+' && b.isDigit then some (charVal b)
    else if a = '-' && b.isDigit then some (-(charVal b))
    else none
  | _ => none

/-- `DisplayRenderer._convert_to_cst_24hr(utc_time_str)`. -/
def convert_to_cst_24hr (s : String) : String :=
  if s = "" ∨ s.length < 4 then ""
  else
    match pyInt2 (s.toList.take 2), pyInt2 ((s.toList.drop 2).take 2) with
    | some utc_hour, some utc_min =>
      let cst_hour := utc_hour - 6
      let cst_hour := if cst_hour < 0 then cst_hour + 24 else cst_hour
      fmtZero 2 cst_hour ++ ":" ++ fmtZero 2 utc_min
    | _, _ => ""

/-! ## Bitmap primitives (modelled from the spec where `icons.py` is missing) -/

/-- Modelled from the spec: the `Font5x7` glyph table of the missing
`src/graphics/icons.py` module.  The spec fixes the cell geometry — every
glyph is a bitmap of identical cell height (7 rows) and width 5, unknown
characters map to a defined blank glyph, and the advance is the constant
cell-width-plus-one-spacing handled by `_draw_text` — but not the individual
pixel shapes, so glyphs are modelled schematically: printable non-space
characters as a full 5×7 block, everything else blank.  Every pattern is a
non-empty list, so the truthiness test in `_draw_text` always advances the
cursor, as the monospace design requires. -/
def fontGetChar (c : Char) : List (List Bool) :=
  List.replicate 7 (List.replicate 5 (32 < c.toNat && c.toNat ≤ 126))

/-- Modelled from the spec: `AviationIcons.get_airplane(frame)` of the missing
`icons.py` module — a fixed 8-pixel-wide airplane bitmap (the startup layout
centers it assuming width 8); the exact silhouette is not specified. -/
def airplaneIcon (_frame : Int) : List (List Bool) :=
  [[false, false, false, true, true, false, false, false],
   [false, false, false, true, true, false, false, false],
   [false, true, true, true, true, true, true, false],
   [true, true, true, true, true, true, true, true],
   [false, false, false, true, true, false, false, false],
   [false, false, false, true, true, false, false, false],
   [false, false, true, true, true, true, false, false],
   [false, false, false, false, false, false, false, false]]

/-! ## Frame compositor: pixel-level drawing primitives (`renderer.py`) -/

/-- The innermost bounds-checked pixel store shared by `_draw_icon`,
`_draw_text` and the wind-arrow loops:
`if 0 <= draw_x < self.width and 0 <= draw_y < self.height: pixels[...] = color`. -/
def clipWrite (W H : Nat) (x y : Int) (c : Color) : List Write :=
  if 0 ≤ x ∧ x < (W : Int) ∧ 0 ≤ y ∧ y < (H : Int) then [(x, y, c)] else []

/-- `DisplayRenderer._draw_icon(img, icon, x, y, color)`: the pixel writes it
performs (row-major over the bitmap, set pixels only, clipped). -/
def draw_icon_writes (W H : Nat) (icon : List (List Bool)) (x y : Int) (c : Color) :
    List Write :=
  icon.enum.flatMap fun ri_row =>
    ri_row.2.enum.flatMap fun ci_px =>
      if ci_px.2 then clipWrite W H (x + ci_px.1) (y + ri_row.1) c else []

/-- The per-glyph inner loops of `_draw_text`: one character pattern stamped
at base position `(x, y)` with scaling factor `scale`. -/
def glyphWrites (W H : Nat) (x y : Int) (scale : Nat) (c : Color)
    (pat : List (List Bool)) : List Write :=
  pat.enum.flatMap fun ri_row =>
    ri_row.2.enum.flatMap fun ci_px =>
      if ci_px.2 then
        (List.range scale).flatMap fun sy =>
          (List.range scale).flatMap fun sx =>
            clipWrite W H (x + ci_px.1 * scale + sx) (y + ri_row.1 * scale + sy) c
      else []

/-- The character loop of `_draw_text`, threading `x_offset` (which advances
by `6 * scale` only when the glyph pattern is truthy, i.e. non-empty). -/
def drawTextGo (W H : Nat) (x y : Int) (c : Color) (scale : Nat) :
    List Char → Int → List Write
  | [], _ => []
  | ch :: rest, xoff =>
    let pat := fontGetChar ch
    if pat = [] then drawTextGo W H x y c scale rest xoff
    else glyphWrites W H (x + xoff) y scale c pat ++
         drawTextGo W H x y c scale rest (xoff + 6 * scale)

/-- `DisplayRenderer._draw_text(img, text, x, y, color, scale)`: the pixel
writes it performs. -/
def draw_text_writes (W H : Nat) (text : String) (x y : Int) (c : Color)
    (scale : Nat) : List Write :=
  drawTextGo W H x y c scale text.toList 0

/-- `DisplayRenderer._draw_wind(img, speed, direction, x, y, frame)`: speed
text then the arrow plot at center `(x+10, y+10)` in orange `(255,100,0)`.
The arrow offsets come from `icons.get_wind_arrow(direction)` (missing
`icons.py`), abstracted here as the parameter `pts`. -/
def draw_wind_writes (W H : Nat) (speed : Int) (pts : List (Int × Int))
    (x y : Int) : List Write :=
  draw_text_writes W H (pyIntRepr speed ++ "KT") x y (0, 255, 200) 1 ++
  pts.flatMap fun p => clipWrite W H (x + 10 + p.1) (y + 10 + p.2) (255, 100, 0)

/-- `DisplayRenderer._draw_wind_large(img, speed, direction, x, y, frame)`:
speed text, direction text, then the arrow plot at center `(x+12, y+18)` in
`(255,120,0)`; arrow offsets abstracted as `pts` as in `draw_wind_writes`. -/
def draw_wind_large_writes (W H : Nat) (speed direction : Int)
    (pts : List (Int × Int)) (x y : Int) : List Write :=
  draw_text_writes W H (pyIntRepr speed ++ "KT") x y (0, 255, 200) 1 ++
  draw_text_writes W H (fmtZero 3 direction) x (y + 8) (255, 150, 0) 1 ++
  pts.flatMap fun p => clipWrite W H (x + 12 + p.1) (y + 18 + p.2) (255, 120, 0)

/-! ## Screen layouts as draw-call sequences -/

/-- One drawing call made by a layout function: a PIL
`ImageDraw.rectangle(..., fill=...)` with inclusive corners, a
`_draw_text` call (scale 1 at every layout call site), or a `_draw_icon`
call. -/
inductive DrawOp where
  | fillRect (x0 y0 x1 y1 : Int) (c : Color)
  | text (s : String) (x y : Int) (c : Color)
  | icon (bitmap : List (List Bool)) (x y : Int) (c : Color)
  deriving DecidableEq, Repr

/-- Pixel writes of one draw call on a `W × H` buffer.  PIL's `rectangle`
fills the inclusive corner box silently clipped to the image, matching the
range intersection here; text and icons use the renderer's own clipped
primitives. -/
def opWrites (W H : Nat) : DrawOp → List Write
  | .fillRect x0 y0 x1 y1 c =>
    (List.range W).flatMap fun x =>
      (List.range H).flatMap fun y =>
        if x0 ≤ (x : Int) ∧ (x : Int) ≤ x1 ∧ y0 ≤ (y : Int) ∧ (y : Int) ≤ y1 then
          [((x : Int), (y : Int), c)]
        else []
  | .text s x y c => draw_text_writes W H s x y c 1
  | .icon bm x y c => draw_icon_writes W H bm x y c

/-- All pixel writes of a draw-call sequence, in call order. -/
def renderWrites (W H : Nat) (ops : List DrawOp) : List Write :=
  ops.flatMap (opWrites W H)

/-- Fold one write into a row-major grid (out-of-range rows untouched; the
interpreters only ever emit in-bounds writes). -/
def applyWrite (g : List (List Color)) : Write → List (List Color)
  | (x, y, c) =>
    match g.get? y.toNat with
    | some row => g.set y.toNat (row.set x.toNat c)
    | none => g

/-- The finished pixel buffer of a draw-call sequence: a black `W × H` grid
(`Image.new('RGB', (w, h), (0,0,0))`) with every write applied in order. -/
def renderBuffer (W H : Nat) (ops : List DrawOp) : List (List Color) :=
  (renderWrites W H ops).foldl applyWrite
    (List.replicate H (List.replicate W ((0, 0, 0) : Color)))

/-! ## Parsed weather data (`weather_fetcher._parse_metar` / `_parse_taf`)

The fetcher hands the controller plain dictionaries; a key that is absent or
`None` reads back as `None` through `.get(...)`, so every field is an
`Option` here (string-valued keys too, since the parse-error fallback dict
omits them and the call sites supply `.get` defaults). -/

/-- The parsed METAR dictionary as consumed by `DisplayController.render`. -/
structure Weather where
  station : Option String
  flight_rules : Option String
  temperature : Option Int
  dewpoint : Option Int
  wind_direction : Option Int
  wind_speed : Option Int
  visibility : Option ℚ
  ceiling : Option Int
  conditions : List String
  deriving DecidableEq, Repr

/-- One parsed TAF forecast-period dictionary as consumed by
`DisplayRenderer.create_taf_display`. -/
structure Period where
  start_time : Option String
  wind_direction : Option Int
  wind_speed : Option Int
  ceiling : Option Int
  flight_rules : Option String
  deriving DecidableEq, Repr

/-- The parsed TAF dictionary (`station`/`forecast` keys used by the
renderer). -/
structure TafData where
  station : Option String
  forecast : List Period
  deriving DecidableEq, Repr

/-! ## Layout compositors (`renderer.py`) -/

/-- `DisplayRenderer.create_metar_display`.  The `y` cursor starts at 19 and
advances by 8 after every band whether or not the band drew anything, so the
five data bands sit at the fixed offsets 19, 27, 35, 43, 51; no band is
height-checked.  `frame` is accepted and unused, as in the source. -/
def create_metar_display (width height : Nat) (station : String)
    (temperature dewpoint wind_speed wind_direction : Option Int)
    (visibility : Option ℚ) (ceiling : Option Int)
    (flight_rules : String) (conditions : List String) (_frame : Int) :
    List DrawOp :=
  let _ := height
  let color := get_flight_rules_color flight_rules
  [DrawOp.fillRect 0 0 (width : Int) 2 color,
   DrawOp.text "METAR" 2 3 (255, 255, 255),
   DrawOp.text (station.take 4) ((width : Int) - 26) 3 (200, 200, 200),
   DrawOp.text (flight_rules.take 4) 2 11 color]
  ++ (match temperature, dewpoint with
      | some t, some d =>
        [DrawOp.text ("T " ++ fmtSpace 3 t ++ " D" ++ fmtSpace 3 d) 2 19 (255, 200, 0)]
      | _, _ => [])
  ++ (match wind_speed, wind_direction with
      | some ws, some wd =>
        [DrawOp.text ("W" ++ fmtZero 3 wd ++ "/" ++ fmtZero 2 ws ++ "KT") 2 27 (0, 255, 200)]
      | _, _ => [])
  ++ (match visibility with
      | some v =>
        [DrawOp.text (if 10 ≤ v then "V 10SM" else "V " ++ fmt1f v ++ "SM") 2 35 (100, 200, 255)]
      | none => [])
  ++ (match ceiling with
      | some cl =>
        [DrawOp.text ("C " ++ fmtZero 3 (Int.fdiv cl 100)) 2 43 (255, 150, 255)]
      | none => [DrawOp.text "C CLR" 2 43 (100, 100, 100)])
  ++ (if conditions = [] then []
      else
        [DrawOp.text ((String.intercalate " " (conditions.take 2)).take 10) 2 51
          (200, 200, 200)])

/-- The `for i, period in enumerate(forecast[:5])` loop of
`create_taf_display`: each iteration first checks `y + 10 > height` and
breaks, else draws the left-edge category strip, the converted start time (if
non-empty), wind (if both fields present) and ceiling (if present), then
advances `y` by the fixed 10-row block height. -/
def taf_period_ops (height : Nat) : Nat → List Period → List DrawOp
  | _, [] => []
  | y, p :: rest =>
    if y + 10 > height then []
    else
      let period_color := get_flight_rules_color (p.flight_rules.getD "UNKN")
      let time_str := convert_to_cst_24hr (p.start_time.getD "")
      [DrawOp.fillRect 0 (y : Int) 1 ((y : Int) + 9) period_color]
      ++ (if time_str ≠ "" then [DrawOp.text time_str 3 (y : Int) (200, 200, 255)] else [])
      ++ (match p.wind_direction, p.wind_speed with
          | some wd, some ws =>
            [DrawOp.text ("W" ++ fmtZero 3 wd ++ "/" ++ fmtZero 2 ws) 3 ((y : Int) + 5)
              (100, 200, 255)]
          | _, _ => [])
      ++ (match p.ceiling with
          | some cl =>
            [DrawOp.text ("C" ++ fmtZero 3 (Int.fdiv cl 100)) 38 ((y : Int) + 5)
              (255, 150, 255)]
          | none => [])
      ++ taf_period_ops height (y + 10) rest

/-- `DisplayRenderer.create_taf_display`.  `not taf_data or not
taf_data.get('forecast')` is the falsy test on the optional dict and its
(possibly empty) forecast list. -/
def create_taf_display (width height : Nat) (station : String)
    (taf_data : Option TafData) (flight_rules : String) (_frame : Int) :
    List DrawOp :=
  let color := get_flight_rules_color flight_rules
  let header :=
    [DrawOp.fillRect 0 0 (width : Int) 2 color,
     DrawOp.text "TAF" 2 3 (255, 255, 255),
     DrawOp.text (station.take 4) ((width : Int) - 26) 3 (200, 200, 200)]
  match taf_data with
  | none => header ++ [DrawOp.text "NO TAF" 2 20 (150, 150, 150)]
  | some t =>
    if t.forecast = [] then header ++ [DrawOp.text "NO TAF" 2 20 (150, 150, 150)]
    else header ++ taf_period_ops height 11 (t.forecast.take 5)

/-- `DisplayRenderer.create_startup_display(message)`: centered airplane icon
and truncated, centered message text. -/
def create_startup_display (width height : Nat) (message : String) : List DrawOp :=
  let _ := height
  [DrawOp.icon (airplaneIcon 0) (Int.fdiv ((width : Int) - 8) 2) 8 (0, 200, 255),
   DrawOp.text (message.take 10)
     (Int.fdiv ((width : Int) - (message.take 10).length * 6) 2) 20 (255, 255, 255)]

/-! ## Display controller (`controller.py`)

`DisplayController` owns the snapshot/forecast, the refresh timestamp, the
animation frame, the display mode (0 = METAR, 1 = TAF) and the mode timer.
The display sink (`self.display.show_image`) is an external collaborator: the
`render` transition returns the composed screen alongside the new state.
Wall-clock `time.time()` is abstracted to `Int` time units passed into
`update`, and the fetcher's network results are `update`'s parameters. -/

/-- The mutable state of `DisplayController`. -/
structure ControllerState where
  airport_code : String
  update_interval : Int
  current_weather : Option Weather
  current_taf : Option TafData
  last_update : Int
  animation_frame : Int
  display_mode : Int
  mode_timer : Int
  deriving DecidableEq, Repr

/-- `DisplayController.__init__(display, airport_code, api_token,
update_interval)` — the state it establishes. -/
def mkController (airport_code : String) (update_interval : Int) : ControllerState :=
  { airport_code := pyUpper airport_code
    update_interval := update_interval
    current_weather := none
    current_taf := none
    last_update := 0
    animation_frame := 0
    display_mode := 0
    mode_timer := 0 }

/-- `DisplayController.update()` at wall-clock time `now`, with the results
of `weather_fetcher.get_metar` / `get_taf` supplied as `metar_result` /
`taf_result`.  When the refresh interval has elapsed, both fields are
assigned the fetch results unconditionally and the refresh timestamp is
reset; otherwise the state is untouched. -/
def update (st : ControllerState) (now : Int) (metar_result : Option Weather)
    (taf_result : Option TafData) : ControllerState :=
  if st.update_interval ≤ now - st.last_update then
    { st with
      current_weather := metar_result
      current_taf := taf_result
      last_update := now }
  else st

/-- The screen `DisplayController.render` pushes to the display sink, as its
draw-call sequence (the controller constructs `DisplayRenderer()` with the
default 64×64 geometry). -/
inductive Screen where
  | loading (ops : List DrawOp)
  | metar (ops : List DrawOp)
  | taf (ops : List DrawOp)
  deriving DecidableEq, Repr

/-- `DisplayController.render()`: on a missing snapshot show the loading
screen and return (timers and animation frame untouched); otherwise advance
the mode timer, flip the mode and reset the timer when it reaches 150,
compose the METAR or TAF screen for the (post-flip) mode, and advance the
animation frame modulo 60. -/
def render (st : ControllerState) : ControllerState × Screen :=
  match st.current_weather with
  | none =>
    (st, Screen.loading (create_startup_display 64 64 ("LOADING " ++ st.airport_code)))
  | some w =>
    let t := st.mode_timer + 1
    let mode := if 150 ≤ t then 1 - st.display_mode else st.display_mode
    let timer := if 150 ≤ t then 0 else t
    let scr :=
      if mode = 0 then
        Screen.metar (create_metar_display 64 64 (w.station.getD st.airport_code)
          w.temperature w.dewpoint w.wind_speed w.wind_direction
          w.visibility w.ceiling (w.flight_rules.getD "UNKNOWN") w.conditions
          st.animation_frame)
      else
        Screen.taf (create_taf_display 64 64 (w.station.getD st.airport_code)
          st.current_taf (w.flight_rules.getD "UNKNOWN") st.animation_frame)
    ({ st with
        display_mode := mode
        mode_timer := timer
        animation_frame := (st.animation_frame + 1) % 60 }, scr)

/-- `DisplayController.set_airport(airport_code)`. -/
def set_airport (st : ControllerState) (airport_code : String) : ControllerState :=
  { st with
    airport_code := pyUpper airport_code
    current_weather := none
    last_update := 0 }

/-- `n` consecutive render ticks (the per-tick `self.render()` call of the
run loop), keeping only the state. -/
def renderIter : Nat → ControllerState → ControllerState
  | 0, st => st
  | n + 1, st => renderIter n (render st).1

/-! ## Observables used by the claim statements -/

/-- `inBounds W H w`: the pixel write `w` lands inside the `W × H` buffer,
i.e. in `[0, W) × [0, H)`. -/
def inBounds (W H : Nat) (w : Write) : Prop :=
  0 ≤ w.1 ∧ w.1 < (W : Int) ∧ 0 ≤ w.2.1 ∧ w.2.1 < (H : Int)

instance (W H : Nat) (w : Write) : Decidable (inBounds W H w) := by
  unfold inBounds
  infer_instance

/-- Number of left-edge flight-category strips
(`draw.rectangle([(0, y), (1, y + 9)], ...)` calls, i.e. filled rectangles
spanning columns 0–1) in a draw-call sequence: exactly one is drawn per
forecast-period block. -/
def stripCount (ops : List DrawOp) : Nat :=
  ops.countP fun op =>
    match op with
    | .fillRect x0 _ x1 _ _ => x0 == 0 && x1 == 1
    | _ => false

/-- Truncate a TAF to its first 5 forecast periods. -/
def truncTaf (taf : Option TafData) : Option TafData :=
  taf.map fun t => { t with forecast := t.forecast.take 5 }

/-- `textAtY ops y`: some text draw call of `ops` sits at row offset `y`
(each METAR data band draws its text at its own fixed row, so this is the
band-rendered observable). -/
def textAtY (ops : List DrawOp) (y : Int) : Bool :=
  ops.any fun op =>
    match op with
    | .text _ _ yo _ => yo == y
    | _ => false

/-! ## Concrete fixtures (used to instantiate theorems on explicit inputs) -/

/-- A concrete parsed METAR snapshot: the fetcher's first demo scenario
(`_get_demo_data`, VFR case). -/
def demoWeather : Weather :=
  { station := some "KJFK"
    flight_rules := some "VFR"
    temperature := some 22
    dewpoint := some 14
    wind_direction := some 270
    wind_speed := some 8
    visibility := some 10
    ceiling := none
    conditions := [] }

/-- A concrete parsed TAF: the first period of the fetcher's demo TAF. -/
def demoTaf : TafData :=
  { station := some "KJFK"
    forecast := [{ start_time := none
                   wind_direction := some 270
                   wind_speed := some 10
                   ceiling := none
                   flight_rules := some "VFR" }] }

/-- A controller state that has already obtained a snapshot and a forecast
(refresh interval 300, all timers at their initial values). -/
def demoState : ControllerState :=
  { mkController "KJFK" 300 with
    current_weather := some demoWeather
    current_taf := some demoTaf }

/-! ## Helper lemmas -/

theorem strMk_append (a b : List Char) : (⟨a⟩ : String) ++ ⟨b⟩ = ⟨a ++ b⟩ := rfl

theorem strMk_length (l : List Char) : (⟨l⟩ : String).length = l.length := rfl

theorem strMk_toList (l : List Char) : (⟨l⟩ : String).toList = l := rfl

theorem digitChar_isDigit (k : Nat) (h : k < 10) : (Nat.digitChar k).isDigit = true := by
  interval_cases k <;> decide

theorem charVal_digitChar (k : Nat) (h : k < 10) : charVal (Nat.digitChar k) = (k : Int) := by
  interval_cases k <;> decide

theorem natCharsAux_small (fuel n : Nat) (hf : 0 < fuel) (h : n < 10) :
    natCharsAux fuel n = [Nat.digitChar n] := by
  cases fuel with
  | zero => omega
  | succ f =>
    unfold natCharsAux
    rw [if_pos h]

theorem natChars_lt_ten (n : Nat) (h : n < 10) : natChars n = [Nat.digitChar n] :=
  natCharsAux_small (n + 1) n (by omega) h

theorem natChars_two_digits (n : Nat) (h10 : 10 ≤ n) (h100 : n < 100) :
    natChars n = [Nat.digitChar (n / 10), Nat.digitChar (n % 10)] := by
  unfold natChars natCharsAux
  rw [if_neg (by omega), natCharsAux_small n (n / 10) (by omega) (by omega)]
  rfl

theorem fmtZero_two_ofNat (n : Nat) (h : n < 100) :
    fmtZero 2 (n : Int) = ⟨[Nat.digitChar (n / 10), Nat.digitChar (n % 10)]⟩ := by
  unfold fmtZero
  rw [if_neg (by omega)]
  by_cases h10 : n < 10
  · rw [Int.toNat_natCast, natChars_lt_ten n h10]
    have hd : n / 10 = 0 := Nat.div_eq_of_lt h10
    have hm : n % 10 = n := Nat.mod_eq_of_lt h10
    simp [padLeft, hd, hm, List.replicate, Nat.digitChar]
  · rw [Int.toNat_natCast, natChars_two_digits n (by omega) h]
    simp [padLeft]

theorem pyInt2_digitChars (x y : Nat) (hx : x < 10) (hy : y < 10) :
    pyInt2 [Nat.digitChar x, Nat.digitChar y] = some ((10 * x + y : Nat) : Int) := by
  simp only [pyInt2]
  rw [if_pos (by simp [digitChar_isDigit x hx, digitChar_isDigit y hy])]
  rw [charVal_digitChar x hx, charVal_digitChar y hy]
  push_cast
  ring_nf

/-! ## Claim theorems -/

/-- **C3.** For every 4-digit UTC time string HHMM whose hour part is in
[0,24), `_convert_to_cst_24hr` returns the string formatted HH:MM with hour =
(UTC_hour − 6 + 24) mod 24 and the minutes unchanged (so "1823" maps to
"12:23" and "0300" maps to "21:00"); for every input of length less than 4,
and for every input on which either two-character slice fails to parse as a
Python int (the non-numeric case), it returns the empty string instead of
failing. -/
theorem convert_to_cst_24hr_spec :
    (∀ H M : Nat, H < 24 → M < 100 →
      convert_to_cst_24hr (fmtZero 2 (H : Int) ++ fmtZero 2 (M : Int)) =
        fmtZero 2 (((H : Int) - 6 + 24) % 24) ++ ":" ++ fmtZero 2 (M : Int))
    ∧ (∀ s : String, s.length < 4 → convert_to_cst_24hr s = "")
    ∧ (∀ s : String,
        pyInt2 (s.toList.take 2) = none ∨ pyInt2 ((s.toList.drop 2).take 2) = none →
        convert_to_cst_24hr s = "")
    ∧ convert_to_cst_24hr "1823" = "12:23"
    ∧ convert_to_cst_24hr "0300" = "21:00" := by
  refine ⟨?_, ?_, ?_, by decide, by decide⟩
  · intro H M hH hM
    rw [fmtZero_two_ofNat H (by omega), fmtZero_two_ofNat M hM, strMk_append]
    unfold convert_to_cst_24hr
    rw [if_neg]
    · rw [strMk_toList]
      have ht : ([Nat.digitChar (H / 10), Nat.digitChar (H % 10)] ++
          [Nat.digitChar (M / 10), Nat.digitChar (M % 10)]).take 2 =
          [Nat.digitChar (H / 10), Nat.digitChar (H % 10)] := rfl
      have hd : (([Nat.digitChar (H / 10), Nat.digitChar (H % 10)] ++
          [Nat.digitChar (M / 10), Nat.digitChar (M % 10)]).drop 2).take 2 =
          [Nat.digitChar (M / 10), Nat.digitChar (M % 10)] := rfl
      rw [ht, hd, pyInt2_digitChars (H / 10) (H % 10) (by omega) (by omega),
        pyInt2_digitChars (M / 10) (M % 10) (by omega) (by omega)]
      have hHv : ((10 * (H / 10) + H % 10 : Nat) : Int) = (H : Int) := by
        push_cast
        omega
      have hMv : ((10 * (M / 10) + M % 10 : Nat) : Int) = (M : Int) := by
        push_cast
        omega
      rw [hHv, hMv]
      simp only []
      have harith : (if (H : Int) - 6 < 0 then (H : Int) - 6 + 24 else (H : Int) - 6) =
          ((H : Int) - 6 + 24) % 24 := by
        split <;> omega
      rw [harith, fmtZero_two_ofNat M hM]
    · rw [not_or]
      constructor
      · intro h
        simpa using congrArg String.data h
      · rw [strMk_length]
        simp
  · intro s h
    unfold convert_to_cst_24hr
    rw [if_pos (Or.inr h)]
  · intro s h
    unfold convert_to_cst_24hr
    by_cases hc : s = "" ∨ s.length < 4
    · rw [if_pos hc]
    · rw [if_neg hc]
      rcases h with h | h
      · rw [h]
      · rcases e : pyInt2 (s.toList.take 2) with _ | v
        · rfl
        · rw [h]

/-- Witness for C3: the general hour-conversion clause applied at the
concrete time 18:23. -/
theorem convert_to_cst_24hr_spec_witness :
    convert_to_cst_24hr (fmtZero 2 ((18 : Nat) : Int) ++ fmtZero 2 ((23 : Nat) : Int)) =
      fmtZero 2 ((((18 : Nat) : Int) - 6 + 24) % 24) ++ ":" ++ fmtZero 2 ((23 : Nat) : Int) :=
  convert_to_cst_24hr_spec.1 18 23 (by omega) (by omega)

/-- **C2** (counterexample).  The claim's category-wide priority order fails:
with conditions `["RA", "TS"]` a thunderstorm code is present, yet
`get_weather_icon` returns "rain", because the loop tests each condition code
in sequence and returns on the first code matching any pattern.  The claim's
final clause also fails: a non-empty condition list with no matching pattern
and an unrecognized category yields "unknown", not "cloudy". -/
theorem get_weather_icon_counterexample :
    get_weather_icon ["RA", "TS"] "VFR" = "rain"
    ∧ get_weather_icon ["RA", "TS"] "VFR" ≠ "thunderstorm"
    ∧ get_weather_icon ["HZ"] "MARGINAL" = "unknown"
    ∧ get_weather_icon ["HZ"] "MARGINAL" ≠ "cloudy" := by
  refine ⟨by decide, by decide, by decide, by decide⟩

/-- **C2** (amended).  `get_weather_icon` scans the condition codes in order
and the first code that contains any pattern decides the icon, the patterns
being tested per code in the order "TS"→thunderstorm, "SN"/"SG"→snow,
"RA"/"DZ"→rain, "FG"/"BR"→fog (captured by `condIcon`); with an empty
condition list the result is 'clear' for VFR and 'cloudy' for any other
category; with a non-empty list in which no code matches, the result is
'clear' for VFR, 'cloudy' for MVFR/IFR/LIFR, and 'unknown' otherwise.  In
particular ["TSRA"] gives 'thunderstorm', ["BR"] gives 'fog', an empty list
with VFR gives 'clear', and an empty list with IFR gives 'cloudy'. -/
theorem get_weather_icon_spec :
    (∀ fr, get_weather_icon [] fr = if fr = "VFR" then "clear" else "cloudy")
    ∧ (∀ c cs fr i, condIcon c = some i → get_weather_icon (c :: cs) fr = i)
    ∧ (∀ c cs fr, condIcon c = none → cs ≠ [] →
        get_weather_icon (c :: cs) fr = get_weather_icon cs fr)
    ∧ (∀ c fr, condIcon c = none →
        get_weather_icon [c] fr =
          if fr = "VFR" then "clear"
          else if fr ∈ (["MVFR", "IFR", "LIFR"] : List String) then "cloudy"
          else "unknown")
    ∧ get_weather_icon ["TSRA"] "VFR" = "thunderstorm"
    ∧ get_weather_icon ["BR"] "VFR" = "fog"
    ∧ get_weather_icon [] "VFR" = "clear"
    ∧ get_weather_icon [] "IFR" = "cloudy" := by
  refine ⟨?_, ?_, ?_, ?_, by decide, by decide, by decide, by decide⟩
  · intro fr
    simp [get_weather_icon]
  · intro c cs fr i h
    simp [get_weather_icon, loopIcons, h]
  · intro c cs fr h hcs
    cases cs with
    | nil => exact absurd rfl hcs
    | cons d ds => simp [get_weather_icon, loopIcons, h]
  · intro c fr h
    simp [get_weather_icon, loopIcons, h]

/-- Witness for C2: the first-matching-code clause applied to the single
code "RA" under category IFR. -/
theorem get_weather_icon_spec_witness : get_weather_icon ["RA"] "IFR" = "rain" :=
  get_weather_icon_spec.2.1 "RA" [] "IFR" "rain" (by decide)

/-- **C6.** `_get_flight_rules_color` maps VFR to green (0,255,0), MVFR to
blue (0,0,255), IFR to red (255,0,0), LIFR to magenta (255,0,255), and every
category string the (case-insensitive) lookup does not recognize — the empty
string included — to gray (128,128,128); and for every category the METAR
layout draws its header bar (its first draw call) and its flight-rules badge
with this one identical color. -/
theorem flight_rules_color_spec :
    get_flight_rules_color "VFR" = (0, 255, 0)
    ∧ get_flight_rules_color "MVFR" = (0, 0, 255)
    ∧ get_flight_rules_color "IFR" = (255, 0, 0)
    ∧ get_flight_rules_color "LIFR" = (255, 0, 255)
    ∧ get_flight_rules_color "" = (128, 128, 128)
    ∧ (∀ s, pyUpper s ∉ (["VFR", "MVFR", "IFR", "LIFR"] : List String) →
        get_flight_rules_color s = (128, 128, 128))
    ∧ (∀ (W H : Nat) (station : String) (t d ws wd : Option Int) (v : Option ℚ)
        (cl : Option Int) (fr : String) (conds : List String) (f : Int),
        (create_metar_display W H station t d ws wd v cl fr conds f).head? =
          some (DrawOp.fillRect 0 0 (W : Int) 2 (get_flight_rules_color fr))
        ∧ DrawOp.text (fr.take 4) 2 11 (get_flight_rules_color fr) ∈
            create_metar_display W H station t d ws wd v cl fr conds f) := by
  refine ⟨by decide, by decide, by decide, by decide, by decide, ?_, ?_⟩
  · intro s hs
    simp only [List.mem_cons, List.not_mem_nil, or_false, not_or] at hs
    obtain ⟨h1, h2, h3, h4⟩ := hs
    simp [get_flight_rules_color, h1, h2, h3, h4]
  · intro W H station t d ws wd v cl fr conds f
    constructor
    · simp [create_metar_display]
    · simp [create_metar_display]

/-- Witness for C6: the gray-fallback clause applied to the unrecognized
category string "FOO", and the header/badge clause at a concrete layout. -/
theorem flight_rules_color_spec_witness :
    get_flight_rules_color "FOO" = (128, 128, 128) :=
  flight_rules_color_spec.2.2.2.2.2.1 "FOO" (by decide)

theorem render_none (st : ControllerState) (h : st.current_weather = none) :
    (render st).1 = st := by
  simp [render, h]

theorem render_some (st : ControllerState) (w : Weather)
    (h : st.current_weather = some w) :
    (render st).1 = { st with
      display_mode := if 150 ≤ st.mode_timer + 1 then 1 - st.display_mode
        else st.display_mode
      mode_timer := if 150 ≤ st.mode_timer + 1 then 0 else st.mode_timer + 1
      animation_frame := (st.animation_frame + 1) % 60 } := by
  simp [render, h]

theorem renderIter_timer_mode (n : Nat) :
    ∀ st : ControllerState, st.current_weather ≠ none →
      0 ≤ st.mode_timer → st.mode_timer < 150 →
      (st.display_mode = 0 ∨ st.display_mode = 1) →
      (renderIter n st).mode_timer = (st.mode_timer + n) % 150
      ∧ (renderIter n st).display_mode =
          (st.display_mode + (st.mode_timer + n) / 150) % 2 := by
  induction n with
  | zero =>
    intro st _ h0 h150 hm
    constructor
    · simp only [renderIter]
      omega
    · simp only [renderIter]
      omega
  | succ k ih =>
    intro st hw h0 h150 hm
    obtain ⟨w, hw'⟩ : ∃ w, st.current_weather = some w := by
      cases h : st.current_weather with
      | none => exact absurd h hw
      | some w => exact ⟨w, rfl⟩
    have hstep := render_some st w hw'
    have hrec := ih (render st).1
      (by rw [hstep]; simpa using hw)
      (by rw [hstep]; simp only []; split <;> omega)
      (by rw [hstep]; simp only []; split <;> omega)
      (by rw [hstep]; simp only []; split <;> omega)
    rw [renderIter] at *
    refine ⟨?_, ?_⟩
    · rw [hrec.1, hstep]
      simp only []
      split <;> omega
    · rw [hrec.2, hstep]
      simp only []
      split <;> omega

/-- **C1** (counterexample).  A controller state holding a previously
obtained snapshot and forecast, whose refresh interval (300) has elapsed at
time 300: after `update` with a failed fetch (the `None` documented by
`get_metar`/`get_taf` as their error result), the prior snapshot and
forecast are gone — `self.current_weather`/`self.current_taf` are assigned
the fetch results unconditionally — contradicting "the prior snapshot and
forecast are left untouched". -/
theorem update_overwrite_counterexample :
    demoState.current_weather = some demoWeather
    ∧ demoState.current_taf = some demoTaf
    ∧ (update demoState 300 none none).current_weather = none
    ∧ (update demoState 300 none none).current_taf = none := by
  refine ⟨rfl, rfl, by decide, by decide⟩

/-- **C1** (amended).  When a refresh attempt is due, `update` replaces the
snapshot and forecast with whatever the fetcher returns — on failure the
prior data is NOT retained (a `None` result clears it; in practice the
fetcher substitutes demo data) — and the refresh timer is reset whether or
not the fetch succeeded, so the fetch is not retried on every subsequent
tick; when no refresh is due, the state is untouched. -/
theorem update_spec :
    (∀ st now mr tr, st.update_interval ≤ now - st.last_update →
      (update st now mr tr).current_weather = mr
      ∧ (update st now mr tr).current_taf = tr
      ∧ (update st now mr tr).last_update = now)
    ∧ (∀ st now mr tr, ¬ st.update_interval ≤ now - st.last_update →
      update st now mr tr = st) := by
  constructor
  · intro st now mr tr h
    refine ⟨?_, ?_, ?_⟩ <;> simp [update, h]
  · intro st now mr tr h
    simp [update, h]

/-- Witness for C1 (amended): a due, failed refresh on the concrete state
clears both fields and resets the refresh timestamp. -/
theorem update_spec_witness :
    (update demoState 300 none none).current_weather = none
    ∧ (update demoState 300 none none).current_taf = none
    ∧ (update demoState 300 none none).last_update = 300 :=
  update_spec.1 demoState 300 none none (by decide)

/-- **C7.** Whenever a snapshot is present, each render tick increments the
mode timer by exactly 1, and exactly when the incremented timer reaches the
150-tick threshold the display mode flips to the other of its two values
(`1 - mode`) and the timer resets to 0; consequently, starting from a zeroed
mode timer, after `n` render ticks the timer reads `n % 150` and the mode has
flipped exactly `n / 150` times — once every 150 render ticks (5 seconds at
30 ticks/second) — and `update` (the weather-refresh transition) never
touches the mode or the mode timer, so the alternation is independent of
refresh timing. -/
theorem mode_alternation_spec :
    (∀ st w, st.current_weather = some w →
      (¬ 150 ≤ st.mode_timer + 1 →
        (render st).1.mode_timer = st.mode_timer + 1
        ∧ (render st).1.display_mode = st.display_mode)
      ∧ (150 ≤ st.mode_timer + 1 →
        (render st).1.mode_timer = 0
        ∧ (render st).1.display_mode = 1 - st.display_mode))
    ∧ (∀ (n : Nat) (st : ControllerState) w, st.current_weather = some w →
        st.mode_timer = 0 → (st.display_mode = 0 ∨ st.display_mode = 1) →
        (renderIter n st).mode_timer = (n : Int) % 150
        ∧ (renderIter n st).display_mode =
            (st.display_mode + (n : Int) / 150) % 2)
    ∧ (∀ st now mr tr, (update st now mr tr).display_mode = st.display_mode
        ∧ (update st now mr tr).mode_timer = st.mode_timer) := by
  refine ⟨?_, ?_, ?_⟩
  · intro st w h
    have hstep := render_some st w h
    constructor
    · intro hlt
      rw [hstep]
      constructor <;> simp [if_neg hlt]
    · intro hge
      rw [hstep]
      constructor <;> simp [if_pos hge]
  · intro n st w hw ht hm
    have := renderIter_timer_mode n st (by rw [hw]; exact Option.some_ne_none w)
      (by omega) (by omega) hm
    rw [ht] at this
    simpa using this
  · intro st now mr tr
    constructor <;> (unfold update; split <;> rfl)

/-- Witness for C7: 150 concrete render ticks from the fixture state flip
the mode exactly once and return the timer to zero. -/
theorem mode_alternation_spec_witness :
    (renderIter 150 demoState).mode_timer = ((150 : Nat) : Int) % 150
    ∧ (renderIter 150 demoState).display_mode =
        (demoState.display_mode + ((150 : Nat) : Int) / 150) % 2 :=
  mode_alternation_spec.2.1 150 demoState demoWeather rfl rfl (Or.inl rfl)

/-- **C8** (counterexample).  A render tick taken while no snapshot has been
obtained (the loading screen) returns before the animation-frame update, so
the frame does NOT advance by 1 modulo 60 on that tick. -/
theorem animation_frame_counterexample :
    (render (mkController "KJFK" 300)).1.animation_frame ≠
      ((mkController "KJFK" 300).animation_frame + 1) % 60 := by
  decide

/-- **C8** (amended).  The controller's animation frame starts at 0, is never
touched by `update` or `set_airport`, advances by exactly 1 modulo 60 on every
render tick on which a snapshot is present, is left unchanged by a
loading-screen render tick (no snapshot), and every operation keeps it inside
[0, 60). -/
theorem animation_frame_spec :
    (∀ a i, (mkController a i).animation_frame = 0)
    ∧ (∀ st now mr tr, (update st now mr tr).animation_frame = st.animation_frame)
    ∧ (∀ st a, (set_airport st a).animation_frame = st.animation_frame)
    ∧ (∀ (st : ControllerState) w, st.current_weather = some w →
        (render st).1.animation_frame = (st.animation_frame + 1) % 60)
    ∧ (∀ st : ControllerState, st.current_weather = none →
        (render st).1.animation_frame = st.animation_frame)
    ∧ (∀ st : ControllerState, 0 ≤ st.animation_frame → st.animation_frame < 60 →
        0 ≤ (render st).1.animation_frame ∧ (render st).1.animation_frame < 60) := by
  refine ⟨fun a i => rfl, ?_, fun st a => rfl, ?_, ?_, ?_⟩
  · intro st now mr tr
    unfold update
    split <;> rfl
  · intro st w h
    rw [render_some st w h]
  · intro st h
    rw [render_none st h]
  · intro st h0 h60
    cases h : st.current_weather with
    | none =>
      rw [render_none st h]
      omega
    | some w =>
      rw [render_some st w h]
      constructor <;> (simp only []; omega)

/-- Witness for C8: the advance-by-one clause applied to the fixture state
that holds a snapshot. -/
theorem animation_frame_spec_witness :
    (render demoState).1.animation_frame = (demoState.animation_frame + 1) % 60 :=
  animation_frame_spec.2.2.2.1 demoState demoWeather rfl

theorem clipWrite_inBounds (W H : Nat) (x y : Int) (c : Color) (w : Write)
    (hw : w ∈ clipWrite W H x y c) : inBounds W H w := by
  unfold clipWrite at hw
  split at hw
  · rcases List.mem_singleton.mp hw with rfl
    exact ‹0 ≤ x ∧ x < (W : Int) ∧ 0 ≤ y ∧ y < (H : Int)›
  · exact absurd hw (List.not_mem_nil w)

theorem glyphWrites_inBounds (W H : Nat) (x y : Int) (scale : Nat) (c : Color)
    (pat : List (List Bool)) (w : Write) (hw : w ∈ glyphWrites W H x y scale c pat) :
    inBounds W H w := by
  simp only [glyphWrites, List.mem_flatMap] at hw
  obtain ⟨p, _, hw⟩ := hw
  obtain ⟨q, _, hw⟩ := hw
  by_cases hb : q.2
  · rw [if_pos hb] at hw
    obtain ⟨sy, _, hw⟩ := List.mem_flatMap.mp hw
    obtain ⟨sx, _, hw⟩ := List.mem_flatMap.mp hw
    exact clipWrite_inBounds W H _ _ c w hw
  · rw [if_neg hb] at hw
    exact absurd hw (List.not_mem_nil w)

theorem draw_icon_writes_inBounds (W H : Nat) (icon : List (List Bool))
    (x y : Int) (c : Color) (w : Write) (hw : w ∈ draw_icon_writes W H icon x y c) :
    inBounds W H w := by
  simp only [draw_icon_writes, List.mem_flatMap] at hw
  obtain ⟨p, _, hw⟩ := hw
  obtain ⟨q, _, hw⟩ := hw
  by_cases hb : q.2
  · rw [if_pos hb] at hw
    exact clipWrite_inBounds W H _ _ c w hw
  · rw [if_neg hb] at hw
    exact absurd hw (List.not_mem_nil w)

theorem drawTextGo_inBounds (W H : Nat) (x y : Int) (c : Color) (scale : Nat)
    (cs : List Char) :
    ∀ (xoff : Int) (w : Write), w ∈ drawTextGo W H x y c scale cs xoff →
      inBounds W H w := by
  induction cs with
  | nil =>
    intro xoff w hw
    simp [drawTextGo] at hw
  | cons ch rest ih =>
    intro xoff w hw
    simp only [drawTextGo] at hw
    split at hw
    · exact ih _ w hw
    · rcases List.mem_append.mp hw with h | h
      · exact glyphWrites_inBounds W H _ y scale c _ w h
      · exact ih _ w h

theorem draw_text_writes_inBounds (W H : Nat) (s : String) (x y : Int)
    (c : Color) (scale : Nat) (w : Write)
    (hw : w ∈ draw_text_writes W H s x y c scale) : inBounds W H w :=
  drawTextGo_inBounds W H x y c scale s.toList 0 w hw

theorem opWrites_inBounds (W H : Nat) (op : DrawOp) (w : Write)
    (hw : w ∈ opWrites W H op) : inBounds W H w := by
  cases op with
  | fillRect x0 y0 x1 y1 c =>
    simp only [opWrites, List.mem_flatMap] at hw
    obtain ⟨px, hpx, hw⟩ := hw
    obtain ⟨py, hpy, hw⟩ := hw
    split at hw
    · rcases List.mem_singleton.mp hw with rfl
      exact ⟨Int.natCast_nonneg px, Int.ofNat_lt.mpr (List.mem_range.mp hpx),
        Int.natCast_nonneg py, Int.ofNat_lt.mpr (List.mem_range.mp hpy)⟩
    · exact absurd hw (List.not_mem_nil w)
  | text s x y c => exact draw_text_writes_inBounds W H s x y c 1 w hw
  | icon bm x y c => exact draw_icon_writes_inBounds W H bm x y c w hw

theorem renderWrites_inBounds (W H : Nat) (ops : List DrawOp) (w : Write)
    (hw : w ∈ renderWrites W H ops) : inBounds W H w := by
  simp only [renderWrites, List.mem_flatMap] at hw
  obtain ⟨op, _, hw⟩ := hw
  exact opWrites_inBounds W H op w hw

/-- **C9.** For every drawing primitive — the icon stamp `_draw_icon`, the
text drawer `_draw_text`, and the wind-arrow plotting loops of `_draw_wind`
and `_draw_wind_large` — and for all integer target coordinates (and any
bitmap, text, scale, or arrow-offset list), every pixel actually written
lands inside [0,W)×[0,H): a set bitmap pixel that would fall outside the
buffer is silently skipped by the per-pixel bounds check, and, the embedded
primitives being total functions, no out-of-bounds coordinate raises. -/
theorem drawing_primitives_clip :
    (∀ (W H : Nat) (icon : List (List Bool)) (x y : Int) (c : Color) (w : Write),
      w ∈ draw_icon_writes W H icon x y c → inBounds W H w)
    ∧ (∀ (W H : Nat) (s : String) (x y : Int) (c : Color) (scale : Nat) (w : Write),
      w ∈ draw_text_writes W H s x y c scale → inBounds W H w)
    ∧ (∀ (W H : Nat) (speed : Int) (pts : List (Int × Int)) (x y : Int) (w : Write),
      w ∈ draw_wind_writes W H speed pts x y → inBounds W H w)
    ∧ (∀ (W H : Nat) (speed direction : Int) (pts : List (Int × Int)) (x y : Int)
        (w : Write),
      w ∈ draw_wind_large_writes W H speed direction pts x y → inBounds W H w) := by
  refine ⟨draw_icon_writes_inBounds, draw_text_writes_inBounds, ?_, ?_⟩
  · intro W H speed pts x y w hw
    rcases List.mem_append.mp hw with h | h
    · exact draw_text_writes_inBounds W H _ x y _ 1 w h
    · obtain ⟨p, _, hp⟩ := List.mem_flatMap.mp h
      exact clipWrite_inBounds W H _ _ _ w hp
  · intro W H speed direction pts x y w hw
    rcases List.mem_append.mp hw with h | h
    · rcases List.mem_append.mp h with h2 | h2
      · exact draw_text_writes_inBounds W H _ x y _ 1 w h2
      · exact draw_text_writes_inBounds W H _ x _ _ 1 w h2
    · obtain ⟨p, _, hp⟩ := List.mem_flatMap.mp h
      exact clipWrite_inBounds W H _ _ _ w hp

/-- Witness for C9: the lone set pixel of a 1×1 icon stamped at the origin of
a 1×1 buffer is written, and lies inside the buffer. -/
theorem drawing_primitives_clip_witness :
    inBounds 1 1 ((0 : Int), (0 : Int), ((5, 5, 5) : Color)) :=
  drawing_primitives_clip.1 1 1 [[true]] 0 0 (5, 5, 5) (0, 0, (5, 5, 5)) (by decide)

theorem stripCount_append (a b : List DrawOp) :
    stripCount (a ++ b) = stripCount a + stripCount b :=
  List.countP_append _ _ _

theorem taf_period_ops_stop (height y : Nat) (ps : List Period)
    (h : height < y + 10) : taf_period_ops height y ps = [] := by
  cases ps with
  | nil => rfl
  | cons p rest =>
    simp only [taf_period_ops]
    rw [if_pos (by omega)]

theorem stripCount_taf_period_ops (height : Nat) :
    ∀ (ps : List Period) (y : Nat),
      stripCount (taf_period_ops height y ps) ≤ ps.length := by
  intro ps
  induction ps with
  | nil =>
    intro y
    simp [taf_period_ops, stripCount]
  | cons p rest ih =>
    intro y
    simp only [taf_period_ops]
    split
    · simp [stripCount]
    · rw [stripCount_append, stripCount_append, stripCount_append, stripCount_append]
      have h1 : stripCount [DrawOp.fillRect 0 (y : Int) 1 ((y : Int) + 9)
          (get_flight_rules_color (p.flight_rules.getD "UNKN"))] = 1 := rfl
      have h2 : stripCount (if convert_to_cst_24hr (p.start_time.getD "") ≠ "" then
          [DrawOp.text (convert_to_cst_24hr (p.start_time.getD "")) 3 (y : Int)
            (200, 200, 255)] else []) = 0 := by
        split <;> rfl
      have h3 : stripCount (match p.wind_direction, p.wind_speed with
          | some wd, some ws =>
            [DrawOp.text ("W" ++ fmtZero 3 wd ++ "/" ++ fmtZero 2 ws) 3 ((y : Int) + 5)
              (100, 200, 255)]
          | _, _ => []) = 0 := by
        rcases p.wind_direction with _ | wd <;> rcases p.wind_speed with _ | ws <;> rfl
      have h4 : stripCount (match p.ceiling with
          | some cl =>
            [DrawOp.text ("C" ++ fmtZero 3 (Int.fdiv cl 100)) 38 ((y : Int) + 5)
              (255, 150, 255)]
          | none => []) = 0 := by
        rcases p.ceiling with _ | cl <;> rfl
      rw [h1, h2, h3, h4]
      have := ih (y + 10)
      simp only [List.length_cons]
      omega

/-- **C4.** The TAF layout draws at most 5 period blocks (at most one
left-edge category strip per period, and its output depends only on the
first 5 forecast periods); the period loop stops — emitting nothing further —
as soon as the next block's 10-row span would exceed the buffer height; and
no op of the layout ever writes a pixel at a row `y ≥ H` (nor any
out-of-bounds pixel).  The width hypothesis `2 ≤ W` only rules out the
degenerate 1-pixel-wide buffer on which the header bar is indistinguishable
from a period strip. -/
theorem taf_layout_safe :
    ∀ (W H : Nat) (station : String) (taf : Option TafData) (fr : String) (f : Int),
      2 ≤ W →
      stripCount (create_taf_display W H station taf fr f) ≤ 5
      ∧ create_taf_display W H station (truncTaf taf) fr f =
          create_taf_display W H station taf fr f
      ∧ (∀ (y : Nat) (ps : List Period), H < y + 10 → taf_period_ops H y ps = [])
      ∧ (∀ w ∈ renderWrites W H (create_taf_display W H station taf fr f),
          inBounds W H w) := by
  intro W H station taf fr f hW
  have hW1 : (((W : Int)) == 1) = false := by
    simp only [beq_eq_false_iff_ne, ne_eq]
    omega
  refine ⟨?_, ?_, fun y ps h => taf_period_ops_stop H y ps h,
    fun w hw => renderWrites_inBounds W H _ w hw⟩
  · cases taf with
    | none =>
      simp only [create_taf_display]
      simp [stripCount, List.countP_cons, hW1]
    | some t =>
      simp only [create_taf_display]
      by_cases hf : t.forecast = []
      · rw [if_pos hf]
        simp [stripCount, List.countP_cons, hW1]
      · rw [if_neg hf, stripCount_append]
        have hh : stripCount [DrawOp.fillRect 0 0 (W : Int) 2 (get_flight_rules_color fr),
            DrawOp.text "TAF" 2 3 (255, 255, 255),
            DrawOp.text (station.take 4) ((W : Int) - 26) 3 (200, 200, 200)] = 0 := by
          simp [stripCount, List.countP_cons, hW1]
        rw [hh]
        have h5 : (t.forecast.take 5).length ≤ 5 := by
          rw [List.length_take]
          omega
        have := stripCount_taf_period_ops H (t.forecast.take 5) 11
        omega
  · cases taf with
    | none => rfl
    | some t =>
      show create_taf_display W H station
        (some { t with forecast := t.forecast.take 5 }) fr f = _
      simp only [create_taf_display]
      by_cases hf : t.forecast = []
      · rw [hf]
        rfl
      · have hf5 : ¬ (t.forecast.take 5 = []) := by
          rw [List.take_eq_nil_iff]
          simp [hf]
        rw [if_neg hf5, if_neg hf, List.take_take]
        norm_num

/-- Witness for C4: the period-count bound instantiated on a 64×64 buffer
with the concrete demo TAF. -/
theorem taf_layout_safe_witness :
    stripCount (create_taf_display 64 64 "KJFK" (some demoTaf) "VFR" 0) ≤ 5 :=
  (taf_layout_safe 64 64 "KJFK" (some demoTaf) "VFR" 0 (by omega)).1

/-- **C5** (counterexample).  First conjunct: with every field of a concrete
METAR present except the ceiling, the ceiling band still renders (the "C CLR"
text at row 43) — so a band is not rendered *exactly* when its own field is
present.  Second conjunct: on a 64×32 buffer the wind band at row 27, whose
8-row slot overruns the 32-row height, is still emitted — the layout has no
stop-when-the-next-band-would-exceed-the-height logic; its out-of-range
pixels are merely clipped one by one at draw time. -/
theorem metar_bands_counterexample :
    textAtY (create_metar_display 64 64 "KJFK" (some 22) (some 14) (some 8) (some 270)
      (some 10) none "VFR" [] 0) 43 = true
    ∧ textAtY (create_metar_display 64 32 "KJFK" (some 22) (some 14) (some 8) (some 270)
      (some 10) none "VFR" [] 0) 27 = true := by
  refine ⟨by decide, by decide⟩

set_option maxHeartbeats 3200000 in
/-- **C5** (amended).  In the METAR layout the temperature/dewpoint, wind and
visibility bands each render exactly when their own field(s) are present, and
the conditions band exactly when the condition list is non-empty — each
independently of every other field, at the fixed rows 19, 27, 35, 43 and 51;
the ceiling band renders always, showing "C CLR" when the ceiling is absent;
and the layout has no height-based stop: every present band is emitted
whatever the buffer height (as the band equations hold for every `H`), with
each pixel clipped to the buffer at draw time, so no pixel is ever written
outside [0,W)×[0,H). -/
theorem metar_bands_spec :
    ∀ (W H : Nat) (station : String) (t d ws wd : Option Int) (v : Option ℚ)
      (cl : Option Int) (fr : String) (conds : List String) (f : Int),
      textAtY (create_metar_display W H station t d ws wd v cl fr conds f) 19 =
        (t.isSome && d.isSome)
      ∧ textAtY (create_metar_display W H station t d ws wd v cl fr conds f) 27 =
        (ws.isSome && wd.isSome)
      ∧ textAtY (create_metar_display W H station t d ws wd v cl fr conds f) 35 =
        v.isSome
      ∧ textAtY (create_metar_display W H station t d ws wd v cl fr conds f) 43 = true
      ∧ textAtY (create_metar_display W H station t d ws wd v cl fr conds f) 51 =
        !conds.isEmpty
      ∧ (∀ w ∈ renderWrites W H (create_metar_display W H station t d ws wd v cl fr conds f),
          inBounds W H w) := by
  intro W H station t d ws wd v cl fr conds f
  cases t <;> cases d <;> cases ws <;> cases wd <;> cases v <;> cases cl <;> cases conds <;>
    exact ⟨rfl, rfl, rfl, rfl, rfl, fun w hw => renderWrites_inBounds W H _ w hw⟩

/-- Witness for C5: the clipping clause applied to the very first pixel the
concrete 64×64 demo METAR layout writes (top-left header-bar pixel). -/
theorem metar_bands_spec_witness :
    inBounds 64 64 ((0 : Int), (0 : Int), ((0, 255, 0) : Color)) :=
  (metar_bands_spec 64 64 "KJFK" (some 22) (some 14) (some 8) (some 270) (some 10)
    none "VFR" [] 0).2.2.2.2.2 (0, 0, (0, 255, 0)) (by decide)

/-- **C10.** The METAR and TAF layout compositors are deterministic pure
functions of their arguments: for every fixed input, two renders produce
identical draw-call sequences and hence byte-identical pixel buffers. -/
theorem layout_determinism :
    (∀ (W H : Nat) (station : String) (t d ws wd : Option Int) (v : Option ℚ)
      (cl : Option Int) (fr : String) (conds : List String) (f : Int),
      renderBuffer W H (create_metar_display W H station t d ws wd v cl fr conds f) =
        renderBuffer W H (create_metar_display W H station t d ws wd v cl fr conds f))
    ∧ (∀ (W H : Nat) (station : String) (taf : Option TafData) (fr : String) (f : Int),
      renderBuffer W H (create_taf_display W H station taf fr f) =
        renderBuffer W H (create_taf_display W H station taf fr f)) :=
  ⟨fun _ _ _ _ _ _ _ _ _ _ _ _ => rfl, fun _ _ _ _ _ _ => rfl⟩

end AVwxHUD
